import Mathlib

/-!
Verification of the cart / coupon / checkout core of the shop backend
(`shop/models.py`, `shop/api.py`).

Modelling conventions:
* Every `DecimalField` in the data model has `decimal_places=2`, and every
  validator bounds the value below by 0, so money amounts are represented as
  natural numbers counted in cents.  `Decimal.quantize(Decimal("0.01"))`
  applied to a value that is already an integer number of cents is the
  identity and is therefore dropped at such places; where a genuine rounding
  happens (`Coupon.compute_discount`) it is modelled by `rheDiv`, integer
  division rounded half to even, which is the default `ROUND_HALF_EVEN`
  rounding of Python `Decimal`.
* Timestamps are integers; `timezone.now()` becomes an explicit `now`
  parameter.
* The database tables touched by checkout live in a `Store` record: the
  product table is a total function from product id to product row (foreign
  key integrity: every id a cart line can mention resolves), the cart rows of
  the cart being operated on, the supplied coupon row, and the order rows.
* `create_order_from_cart` raises `ValueError`; this is modelled by
  `Except`, and the error value carries the store as it was at the moment of
  the raise, so that "aborts with no partial mutation" is a provable property
  of the translation (all checks precede all writes) rather than an artifact
  of the encoding.
-/

namespace Shop

/-- Integer division rounded half to even: the `ROUND_HALF_EVEN` rounding
used by Python `Decimal.quantize`, applied to `n / d`. -/
def rheDiv (n d : Nat) : Nat :=
  if 2 * (n % d) < d then n / d
  else if d < 2 * (n % d) then n / d + 1
  else if (n / d) % 2 = 0 then n / d else n / d + 1

/-- `Product` row (`shop/models.py`): `price` in cents (`DecimalField`,
2 places, `>= 0`), `stock_quantity : PositiveIntegerField`,
`is_active : BooleanField`.  Fields not used by cart or checkout logic
(descriptions, images, timestamps) are omitted. -/
structure Product where
  name : String
  price : Nat
  stock_quantity : Nat
  is_active : Bool
deriving Repr, DecidableEq

/-- `CartItem` row (`shop/models.py`): primary key `id`, the referenced
product's id, `quantity : PositiveIntegerField` (validator `>= 1`), and the
captured `unit_price` in cents. -/
structure CartItem where
  id : Nat
  product_id : Nat
  quantity : Nat
  unit_price : Nat
deriving Repr, DecidableEq

/-- `Coupon.DiscountType` choices. -/
inductive DiscountType where
  | percentage
  | flat
deriving Repr, DecidableEq

/-- `Coupon` row (`shop/models.py`).  `discount_value` and
`minimum_cart_value` are cents; `applicable_products` is the M2M id set
(a list; empty means unrestricted). -/
structure Coupon where
  discount_type : DiscountType
  discount_value : Nat
  start_at : Int
  end_at : Int
  minimum_cart_value : Nat
  usage_limit : Option Nat
  times_used : Nat
  is_enabled : Bool
  applicable_products : List Nat
deriving Repr, DecidableEq

/-- `OrderItem` row: product reference, copied quantity and unit price,
computed `line_total`, all amounts in cents. -/
structure OrderItem where
  product_id : Nat
  quantity : Nat
  unit_price : Nat
  line_total : Nat
deriving Repr, DecidableEq

/-- `Order` row: whether the nullable coupon FK is set, the three amounts in
cents, and the owned `OrderItem` rows.  Owner/guest/status fields are HTTP
glue and omitted. -/
structure Order where
  couponApplied : Bool
  subtotal_amount : Nat
  discount_amount : Nat
  total_amount : Nat
  items : List OrderItem
deriving Repr, DecidableEq

/-- `Cart.subtotal` (`shop/models.py` lines 191-195): the loop accumulates
`unit_price * quantity` over the cart's items; the final
`quantize(Decimal("0.01"))` is the identity on an integer number of cents. -/
def cartSubtotal (items : List CartItem) : Nat :=
  (items.map (fun it => it.unit_price * it.quantity)).sum

/-- `Coupon.is_active_now` (`shop/models.py` lines 136-144). -/
def Coupon.is_active_now (c : Coupon) (now : Int) : Bool :=
  if !c.is_enabled then false
  else if now < c.start_at || c.end_at < now then false
  else
    match c.usage_limit with
    | some lim => if lim ≤ c.times_used then false else true
    | none => true

/-- `Coupon.is_applicable_to_cart` (`shop/models.py` lines 146-162),
returning the `(ok, reason)` pair.  The `set(...).isdisjoint(...)` test on
the cart's product ids against the allowed ids becomes: no cart line's
product id occurs in `applicable_products`. -/
def Coupon.is_applicable_to_cart (c : Coupon) (items : List CartItem)
    (now : Int) : Bool × String :=
  if !(c.is_active_now now) then (false, "Coupon is expired or disabled.")
  else if cartSubtotal items < c.minimum_cart_value then
    (false, "Minimum cart value not met for this coupon.")
  else if !c.applicable_products.isEmpty &&
      items.all (fun it => !(c.applicable_products.contains it.product_id)) then
    (false, "Coupon is not applicable to items in your cart.")
  else (true, "")

/-- `Coupon.compute_discount` (`shop/models.py` lines 164-172).
Percentage: the source computes `pct = (discount_value / 100).quantize(4dp)`;
with `discount_value = V` cents this exact ratio is `V * 10 ^ (-4)`, already
at 4 decimal places, so the quantize is exact and `pct` is `V` in units of
`10 ^ (-4)`.  Then `(subtotal * pct).quantize(2dp)` in cents is the half-even
rounding of `subtotal * V / 10 ^ 4`.  Flat: `min(discount_value, subtotal)`,
whose 2-place quantize is the identity on cents. -/
def Coupon.compute_discount (c : Coupon) (items : List CartItem) : Nat :=
  match c.discount_type with
  | .percentage => rheDiv (cartSubtotal items * c.discount_value) 10000
  | .flat => min c.discount_value (cartSubtotal items)

/-- The database state touched by cart and checkout operations: the product
table (total: FK integrity), the active cart's line items and checked-out
timestamp, the supplied coupon row (if any), and the order rows. -/
structure Store where
  products : Nat → Product
  cartItems : List CartItem
  cartCheckedOutAt : Option Int
  coupon : Option Coupon
  orders : List Order

/-- Point update of the product table setting one product's stock. -/
def setStock (ps : Nat → Product) (pid : Nat) (q : Nat) : Nat → Product :=
  fun x => if x = pid then { ps x with stock_quantity := q } else ps x

/-- The stock decrement loop of `create_order_from_cart` (`shop/models.py`
lines 281-283): `item.product.stock_quantity -= item.quantity` for each cart
line, saved back to the product table. -/
def decrementStocks (ps : Nat → Product) (items : List CartItem) :
    Nat → Product :=
  items.foldl
    (fun acc it =>
      setStock acc it.product_id ((acc it.product_id).stock_quantity - it.quantity))
    ps

/-- The `OrderItem` creation loop (`shop/models.py` lines 295-302):
`line_total = (unit_price * quantity).quantize(2dp)` is exact in cents. -/
def orderItemsOf (items : List CartItem) : List OrderItem :=
  items.map (fun it =>
    { product_id := it.product_id
      quantity := it.quantity
      unit_price := it.unit_price
      line_total := it.unit_price * it.quantity })

/-- Lines 272-274 of `create_order_from_cart`:
`total = (subtotal - discount).quantize(Decimal("0.01"))` (exact on cents,
computed in `Int` since `Decimal` subtraction can go negative) followed by
`if total < 0: total = Decimal("0.00")`. -/
def totalOf (subtotal discount : Nat) : Nat :=
  if (subtotal : Int) - (discount : Int) < 0 then 0
  else ((subtotal : Int) - (discount : Int)).toNat

/-- The `Order` row created at lines 285-293, with its owned `OrderItem`
rows from lines 295-302. -/
def checkoutOrder (s : Store) (subtotal discount : Nat) : Order :=
  { couponApplied := s.coupon.isSome
    subtotal_amount := subtotal
    discount_amount := discount
    total_amount := totalOf subtotal discount
    items := orderItemsOf s.cartItems }

/-- Lines 276-311 of `create_order_from_cart`, after the cart-empty, minimum
order amount and coupon checks: the stock validation loop over all lines
(`find?` returns the first line whose quantity exceeds current stock, the
one whose name the `ValueError` carries), then — only when no line failed —
the stock decrement loop, creation of the `Order` and its `OrderItem` rows,
the race-safe `times_used` increment, and cart retirement. -/
def finishCheckout (s : Store) (now : Int) (subtotal discount : Nat) :
    Except (String × Store) (Store × Order) :=
  match s.cartItems.find?
      (fun it => (s.products it.product_id).stock_quantity < it.quantity) with
  | some it =>
      .error ("Insufficient stock for " ++ (s.products it.product_id).name ++ ".", s)
  | none =>
      .ok ({ s with
              products := decrementStocks s.products s.cartItems
              coupon := s.coupon.map (fun c => { c with times_used := c.times_used + 1 })
              orders := s.orders ++ [checkoutOrder s subtotal discount]
              cartItems := []
              cartCheckedOutAt := some now }, checkoutOrder s subtotal discount)

/-- `create_order_from_cart` (`shop/models.py` lines 248-311).  The error
carries the store at the moment of the `ValueError`; since the function is
wrapped in `transaction.atomic`, Django additionally rolls back on error —
the theorems below show no roll-back is ever needed because every raise
happens before any write. -/
def create_order_from_cart (s : Store) (now : Int) (min_order_amount : Nat) :
    Except (String × Store) (Store × Order) :=
  if s.cartItems.length = 0 then .error ("Cart is empty.", s)
  else if cartSubtotal s.cartItems < min_order_amount then
    .error ("Minimum order amount not met.", s)
  else
    match s.coupon with
    | some c =>
        if (c.is_applicable_to_cart s.cartItems now).1 then
          finishCheckout s now (cartSubtotal s.cartItems)
            (c.compute_discount s.cartItems)
        else .error ((c.is_applicable_to_cart s.cartItems now).2, s)
    | none => finishCheckout s now (cartSubtotal s.cartItems) 0

/-- `cart_item_add` (`shop/api.py` lines 215-239).  The serializer first
resolves `product_id` against `Product.objects.filter(is_active=True)`
(an inactive or unknown product is a validation error) and enforces the model
validator `quantity >= 1`; then the view checks requested quantity against
stock, and `get_or_create` on the unique `(cart, product)` pair either
creates the line (capturing the current price) or merges quantities,
re-validating the combined quantity against stock and refreshing the
captured unit price.  `newId` is the fresh primary key used if a row is
created. -/
def cart_item_add (s : Store) (pid : Nat) (quantity : Nat) (newId : Nat) :
    Except String Store :=
  if !(s.products pid).is_active then .error "Invalid pk - object does not exist."
  else if quantity < 1 then .error "Ensure this value is greater than or equal to 1."
  else if (s.products pid).stock_quantity < quantity then .error "Insufficient stock."
  else
    match s.cartItems.find? (fun it => it.product_id = pid) with
    | none =>
        .ok { s with cartItems := s.cartItems ++
                [{ id := newId, product_id := pid, quantity := quantity,
                   unit_price := (s.products pid).price }] }
    | some item =>
        if (s.products pid).stock_quantity < item.quantity + quantity then
          .error "Insufficient stock."
        else
          .ok { s with cartItems := s.cartItems.map (fun it =>
                  if it.id = item.id then
                    { it with quantity := item.quantity + quantity,
                              unit_price := (s.products pid).price }
                  else it) }

/-- `cart_item_delete` (`shop/api.py` lines 270-275):
`CartItem.objects.filter(cart=cart, id=item_id).delete()` — idempotent
removal by primary key. -/
def cart_item_delete (s : Store) (item_id : Nat) : Store :=
  { s with cartItems := s.cartItems.filter (fun it => !(it.id = item_id)) }

/-- One iteration of `_merge_guest_cart_into_user_cart` (`shop/api.py`
lines 54-66): if the user cart already holds the guest item's product, add
the quantities and refresh the unit price to the product's current price;
otherwise copy the item with the current price (the copy gets a fresh
primary key; `g.id` stands in for it, ids never being compared across
carts). -/
def mergeStep (products : Nat → Product) (userItems : List CartItem)
    (g : CartItem) : List CartItem :=
  match userItems.find? (fun it => it.product_id = g.product_id) with
  | some existing =>
      userItems.map (fun it =>
        if it.id = existing.id then
          { it with quantity := it.quantity + g.quantity,
                    unit_price := (products g.product_id).price }
        else it)
  | none =>
      userItems ++ [{ id := g.id, product_id := g.product_id,
                      quantity := g.quantity,
                      unit_price := (products g.product_id).price }]

/-- `_merge_guest_cart_into_user_cart` (`shop/api.py` lines 53-67): fold the
guest items into the user cart, then delete all guest items.  Returns the
resulting (user cart items, guest cart items). -/
def merge_guest_cart_into_user_cart (products : Nat → Product)
    (userItems guestItems : List CartItem) : List CartItem × List CartItem :=
  (guestItems.foldl (mergeStep products) userItems, [])

/-! ### Arithmetic helper lemmas -/

theorem rheDiv_le (n d S : Nat) (hd : 0 < d) (h : n ≤ S * d) : rheDiv n d ≤ S := by
  have hdm : d * (n / d) + n % d = n := Nat.div_add_mod n d
  have hq : n / d ≤ S := by
    have h2 := Nat.div_le_div_right (c := d) h
    rwa [Nat.mul_div_cancel S hd] at h2
  have hq1 : 0 < n % d → n / d + 1 ≤ S := by
    intro hr
    have hlt : d * (n / d) < d * S := by
      have hdn : d * (n / d) < n := by omega
      have hds : n ≤ d * S := by rw [Nat.mul_comm]; exact h
      omega
    exact Nat.lt_of_mul_lt_mul_left hlt
  unfold rheDiv
  split
  · exact hq
  · split
    · exact hq1 (by omega)
    · split
      · exact hq
      · exact hq1 (by omega)

/-! ### Concrete fixtures used by witnesses and counterexamples -/

def wTbl : Nat → Product := fun _ => ⟨"Widget", 500, 10, true⟩

def stEmpty : Store := ⟨wTbl, [], none, none, []⟩

def stOne : Store := ⟨wTbl, [⟨1, 1, 2, 500⟩], none, none, []⟩

def couponDisabled : Coupon := ⟨.flat, 100, -10, 10, 0, none, 0, false, []⟩

def stCoupBad : Store := ⟨wTbl, [⟨1, 1, 2, 500⟩], none, some couponDisabled, []⟩

def stStockShort : Store := ⟨wTbl, [⟨1, 1, 20, 500⟩], none, none, []⟩

/-! ### C1: failing checkouts abort with no mutation -/

/-- C1: every failing run of `create_order_from_cart` (empty cart, subtotal
below the minimum order amount, ineligible coupon, or some line's quantity
exceeding its product's current stock) raises an error whose carried store is
exactly the input store: no stock decrement, no order or order-item row, no
coupon counter change, and the cart's timestamp and items untouched. -/
theorem checkout_failure_aborts_cleanly (s : Store) (now : Int) (m : Nat) :
    (∀ msg s', create_order_from_cart s now m = .error (msg, s') → s' = s) ∧
    ((s.cartItems = [] ∨ cartSubtotal s.cartItems < m ∨
      (∃ c, s.coupon = some c ∧ (c.is_applicable_to_cart s.cartItems now).1 = false) ∨
      (∃ it ∈ s.cartItems, (s.products it.product_id).stock_quantity < it.quantity)) →
      ∃ msg, create_order_from_cart s now m = .error (msg, s)) := by
  constructor
  · intro msg s' h
    unfold create_order_from_cart at h
    split at h
    · simp only [Except.error.injEq, Prod.mk.injEq] at h
      exact h.2.symm
    · split at h
      · simp only [Except.error.injEq, Prod.mk.injEq] at h
        exact h.2.symm
      · split at h
        · split at h
          · unfold finishCheckout at h
            split at h
            · simp only [Except.error.injEq, Prod.mk.injEq] at h
              exact h.2.symm
            · simp at h
          · simp only [Except.error.injEq, Prod.mk.injEq] at h
            exact h.2.symm
        · unfold finishCheckout at h
          split at h
          · simp only [Except.error.injEq, Prod.mk.injEq] at h
            exact h.2.symm
          · simp at h
  · intro hfail
    by_cases hE : s.cartItems.length = 0
    · exact ⟨"Cart is empty.", by unfold create_order_from_cart; simp [hE]⟩
    · by_cases hM : cartSubtotal s.cartItems < m
      · refine ⟨"Minimum order amount not met.", ?_⟩
        unfold create_order_from_cart
        simp [hE, hM]
      · have hNE : s.cartItems ≠ [] := by
          intro hnil; exact hE (by rw [hnil]; rfl)
        rcases hfail with hnil | hlt | ⟨c, hc, hbad⟩ | ⟨bad, hmem, hshort⟩
        · exact absurd hnil hNE
        · exact absurd hlt hM
        · refine ⟨(c.is_applicable_to_cart s.cartItems now).2, ?_⟩
          unfold create_order_from_cart
          simp [hE, hM, hc, hbad]
        · have hfind : s.cartItems.find?
              (fun it => (s.products it.product_id).stock_quantity < it.quantity) ≠ none := by
            intro hnone
            have hb := List.find?_eq_none.mp hnone bad hmem
            simp [hshort] at hb
          rcases hf : s.cartItems.find?
              (fun it => (s.products it.product_id).stock_quantity < it.quantity)
            with _ | culprit
          · exact absurd hf hfind
          · rcases hc : s.coupon with _ | c
            · refine ⟨"Insufficient stock for " ++
                (s.products culprit.product_id).name ++ ".", ?_⟩
              unfold create_order_from_cart finishCheckout
              simp [hE, hM, hc, hf]
            · by_cases hok : (c.is_applicable_to_cart s.cartItems now).1
              · refine ⟨"Insufficient stock for " ++
                  (s.products culprit.product_id).name ++ ".", ?_⟩
                unfold create_order_from_cart finishCheckout
                simp [hE, hM, hc, hok, hf]
              · refine ⟨(c.is_applicable_to_cart s.cartItems now).2, ?_⟩
                unfold create_order_from_cart
                simp [hE, hM, hc, hok]

/-- Witness for C1 at a concrete empty cart. -/
theorem checkout_failure_aborts_cleanly_witness :
    (stEmpty.cartItems = [] ∨ cartSubtotal stEmpty.cartItems < 0 ∨
      (∃ c, stEmpty.coupon = some c ∧
        (c.is_applicable_to_cart stEmpty.cartItems 0).1 = false) ∨
      (∃ it ∈ stEmpty.cartItems,
        (stEmpty.products it.product_id).stock_quantity < it.quantity)) ∧
    ∃ msg, create_order_from_cart stEmpty 0 0 = .error (msg, stEmpty) :=
  ⟨Or.inl rfl, (checkout_failure_aborts_cleanly stEmpty 0 0).2 (Or.inl rfl)⟩

/-! ### C3: precondition check order and first-failure reason -/

/-- C3: `create_order_from_cart` checks its preconditions in the fixed order
(1) cart non-empty, (2) subtotal at least the minimum order amount,
(3) supplied coupon eligible, (4) every line quantity within current stock,
and fails with the reason of the first violated check (for the stock check,
the first offending line, as found by `find?`); an empty cart never yields an
order, and with no coupon supplied the created order's discount is 0. -/
theorem checkout_check_order (s : Store) (now : Int) (m : Nat) :
    (s.cartItems = [] → create_order_from_cart s now m = .error ("Cart is empty.", s)) ∧
    (s.cartItems ≠ [] → cartSubtotal s.cartItems < m →
      create_order_from_cart s now m = .error ("Minimum order amount not met.", s)) ∧
    (∀ c, s.cartItems ≠ [] → ¬cartSubtotal s.cartItems < m → s.coupon = some c →
      (c.is_applicable_to_cart s.cartItems now).1 = false →
      create_order_from_cart s now m =
        .error ((c.is_applicable_to_cart s.cartItems now).2, s)) ∧
    (∀ bad, s.cartItems ≠ [] → ¬cartSubtotal s.cartItems < m →
      (s.coupon = none ∨
        ∃ c, s.coupon = some c ∧ (c.is_applicable_to_cart s.cartItems now).1 = true) →
      s.cartItems.find?
        (fun it => (s.products it.product_id).stock_quantity < it.quantity) = some bad →
      create_order_from_cart s now m =
        .error ("Insufficient stock for " ++ (s.products bad.product_id).name ++ ".", s)) ∧
    (s.coupon = none → ∀ s' o, create_order_from_cart s now m = .ok (s', o) →
      o.discount_amount = 0) ∧
    (s.cartItems = [] → ∀ s' o, create_order_from_cart s now m ≠ .ok (s', o)) := by
  have hlen : ∀ l : List CartItem, l ≠ [] → ¬l.length = 0 := by
    intro l hne h0
    exact hne (List.length_eq_zero.mp h0)
  refine ⟨?_, ?_, ?_, ?_, ?_, ?_⟩
  · intro hnil
    unfold create_order_from_cart
    simp [hnil]
  · intro hne hlt
    unfold create_order_from_cart
    simp [hlen _ hne, hlt]
  · intro c hne hge hc hbad
    unfold create_order_from_cart
    simp [hlen _ hne, hge, hc, hbad]
  · intro bad hne hge hcoup hf
    rcases hcoup with hc | ⟨c, hc, hok⟩
    · unfold create_order_from_cart finishCheckout
      simp [hlen _ hne, hge, hc, hf]
    · unfold create_order_from_cart finishCheckout
      simp [hlen _ hne, hge, hc, hok, hf]
  · intro hc s' o h
    unfold create_order_from_cart at h
    split at h
    · simp at h
    · split at h
      · simp at h
      · simp only [hc] at h
        unfold finishCheckout at h
        split at h
        · exact Except.noConfusion h
        · simp only [Except.ok.injEq, Prod.mk.injEq] at h
          rw [← h.2]
          rfl
  · intro hnil s' o h
    unfold create_order_from_cart at h
    simp [hnil] at h

/-! ### Success-path helper lemmas -/

theorem totalOf_int (a b : Nat) : (totalOf a b : Int) = max ((a : Int) - b) 0 := by
  unfold totalOf
  split
  · rename_i h
    rw [max_eq_right (le_of_lt h)]
    simp
  · rename_i h
    rw [Int.toNat_of_nonneg (not_lt.mp h), max_eq_left (not_lt.mp h)]

theorem decrementStocks_not_mem (items : List CartItem) (ps : Nat → Product)
    (pid : Nat) (h : ∀ it ∈ items, it.product_id ≠ pid) :
    decrementStocks ps items pid = ps pid := by
  induction items generalizing ps with
  | nil => rfl
  | cons x xs ih =>
      have hx : x.product_id ≠ pid := h x (by simp)
      have h2 := ih (setStock ps x.product_id
          ((ps x.product_id).stock_quantity - x.quantity))
        (fun it hit => h it (by simp [hit]))
      unfold decrementStocks at h2 ⊢
      simp only [List.foldl_cons]
      rw [h2]
      unfold setStock
      rw [if_neg (fun e => hx e.symm)]

theorem decrementStocks_mem (items : List CartItem) (ps : Nat → Product)
    (it : CartItem)
    (hpw : items.Pairwise (fun a b => a.product_id ≠ b.product_id))
    (hmem : it ∈ items) :
    (decrementStocks ps items it.product_id).stock_quantity
      = (ps it.product_id).stock_quantity - it.quantity := by
  induction items generalizing ps with
  | nil => cases hmem
  | cons x xs ih =>
      rw [List.pairwise_cons] at hpw
      rcases List.mem_cons.mp hmem with rfl | hmem'
      · have hrest := decrementStocks_not_mem xs
          (setStock ps it.product_id
            ((ps it.product_id).stock_quantity - it.quantity))
          it.product_id (fun y hy => (hpw.1 y hy).symm)
        unfold decrementStocks at hrest ⊢
        simp only [List.foldl_cons]
        rw [hrest]
        unfold setStock
        rw [if_pos rfl]
      · have hres := ih
          (setStock ps x.product_id ((ps x.product_id).stock_quantity - x.quantity))
          hpw.2 hmem'
        unfold decrementStocks at hres ⊢
        simp only [List.foldl_cons]
        rw [hres]
        unfold setStock
        rw [if_neg (fun e => (hpw.1 it hmem') e.symm)]

/-- Core success lemma: when the cart is non-empty, the subtotal meets the
minimum, the coupon (if supplied) is eligible with computed discount `D`,
and no line exceeds stock, `create_order_from_cart` commits and returns
exactly the checked-out store and the created order. -/
theorem checkout_commits (s : Store) (now : Int) (m : Nat) (D : Nat)
    (hne : ¬s.cartItems.length = 0)
    (hM : ¬cartSubtotal s.cartItems < m)
    (hD : (s.coupon = none ∧ D = 0) ∨
      (∃ c, s.coupon = some c ∧ (c.is_applicable_to_cart s.cartItems now).1 = true ∧
        D = c.compute_discount s.cartItems))
    (hstock : s.cartItems.find?
      (fun it => (s.products it.product_id).stock_quantity < it.quantity) = none) :
    create_order_from_cart s now m = .ok
      ({ s with
          products := decrementStocks s.products s.cartItems
          coupon := s.coupon.map (fun c => { c with times_used := c.times_used + 1 })
          orders := s.orders ++ [checkoutOrder s (cartSubtotal s.cartItems) D]
          cartItems := []
          cartCheckedOutAt := some now },
        checkoutOrder s (cartSubtotal s.cartItems) D) := by
  unfold create_order_from_cart finishCheckout
  rcases hD with ⟨hc, hD0⟩ | ⟨c, hc, hok, hDc⟩
  · subst hD0
    simp [hne, hM, hc, hstock]
  · subst hDc
    simp [hne, hM, hc, hok, hstock]

def stMinShort : Store := ⟨wTbl, [⟨1, 1, 1, 500⟩], none, none, []⟩

/-- Witness for C3: four concrete stores, one per check, each failing at
exactly that check with its own message, and the four messages pairwise
distinct. -/
theorem checkout_check_order_witness :
    create_order_from_cart stEmpty 0 0 = .error ("Cart is empty.", stEmpty) ∧
    create_order_from_cart stMinShort 0 1000 =
      .error ("Minimum order amount not met.", stMinShort) ∧
    create_order_from_cart stCoupBad 0 0 =
      .error ("Coupon is expired or disabled.", stCoupBad) ∧
    create_order_from_cart stStockShort 0 0 =
      .error ("Insufficient stock for Widget.", stStockShort) ∧
    ("Cart is empty." ≠ "Minimum order amount not met.") ∧
    ("Cart is empty." ≠ "Coupon is expired or disabled.") ∧
    ("Cart is empty." ≠ "Insufficient stock for Widget.") ∧
    ("Minimum order amount not met." ≠ "Coupon is expired or disabled.") ∧
    ("Minimum order amount not met." ≠ "Insufficient stock for Widget.") ∧
    ("Coupon is expired or disabled." ≠ "Insufficient stock for Widget.") := by
  refine ⟨(checkout_check_order stEmpty 0 0).1 rfl,
          (checkout_check_order stMinShort 0 1000).2.1 (by decide) (by decide),
          ?_, ?_, by decide, by decide, by decide, by decide, by decide, by decide⟩
  · have h := (checkout_check_order stCoupBad 0 0).2.2.1 couponDisabled
      (by decide) (by decide) rfl (by decide)
    exact h
  · have h := (checkout_check_order stStockShort 0 0).2.2.2.1 ⟨1, 1, 20, 500⟩
      (by decide) (by decide) (Or.inl rfl) (by rfl)
    exact h

/-! ### C2: successful checkout effects -/

/-- C2: for every non-empty cart meeting the minimum order amount, with an
eligible (or absent) coupon and every line quantity within current stock,
`create_order_from_cart` decrements each referenced product's stock by the
line quantity, creates exactly one order recording subtotal, discount and
total = subtotal - discount floored at 0, creates one order item per cart
line copying quantity and captured unit price with
line_total = unit_price * quantity, bumps the coupon's `times_used` by
exactly one (none if no coupon), stamps the cart checked-out, clears its
items, and returns the created order. -/
theorem checkout_success_effects (s : Store) (now : Int) (m : Nat)
    (hne : s.cartItems ≠ [])
    (hM : ¬cartSubtotal s.cartItems < m)
    (hcoup : s.coupon = none ∨
      ∃ c, s.coupon = some c ∧ (c.is_applicable_to_cart s.cartItems now).1 = true)
    (hstock : ∀ it ∈ s.cartItems,
      it.quantity ≤ (s.products it.product_id).stock_quantity)
    (hdist : s.cartItems.Pairwise (fun a b => a.product_id ≠ b.product_id)) :
    ∃ s' o, create_order_from_cart s now m = .ok (s', o) ∧
      (∀ it ∈ s.cartItems, (s'.products it.product_id).stock_quantity
          = (s.products it.product_id).stock_quantity - it.quantity) ∧
      s'.orders = s.orders ++ [o] ∧
      o.subtotal_amount = cartSubtotal s.cartItems ∧
      o.discount_amount = (match s.coupon with
        | none => 0
        | some c => c.compute_discount s.cartItems) ∧
      (o.total_amount : Int) =
        max ((cartSubtotal s.cartItems : Int) - (o.discount_amount : Int)) 0 ∧
      o.items = s.cartItems.map (fun it =>
        { product_id := it.product_id, quantity := it.quantity,
          unit_price := it.unit_price,
          line_total := it.unit_price * it.quantity }) ∧
      (s.coupon = none → s'.coupon = none) ∧
      (∀ c, s.coupon = some c →
        s'.coupon = some { c with times_used := c.times_used + 1 }) ∧
      s'.cartCheckedOutAt = some now ∧
      s'.cartItems = [] := by
  have hlen : ¬s.cartItems.length = 0 := by
    intro h0; exact hne (List.length_eq_zero.mp h0)
  have hfind : s.cartItems.find?
      (fun it => (s.products it.product_id).stock_quantity < it.quantity) = none := by
    rw [List.find?_eq_none]
    intro x hx
    simp only [decide_eq_true_eq, not_lt]
    exact hstock x hx
  set D : Nat := (match s.coupon with
    | none => 0
    | some c => c.compute_discount s.cartItems) with hDdef
  have hD : (s.coupon = none ∧ D = 0) ∨
      (∃ c, s.coupon = some c ∧ (c.is_applicable_to_cart s.cartItems now).1 = true ∧
        D = c.compute_discount s.cartItems) := by
    rcases hcoup with hc | ⟨c, hc, hok⟩
    · exact Or.inl ⟨hc, by rw [hDdef, hc]⟩
    · exact Or.inr ⟨c, hc, hok, by rw [hDdef, hc]⟩
  have heq := checkout_commits s now m D hlen hM hD hfind
  refine ⟨_, _, heq, ?_, rfl, rfl, rfl, ?_, rfl, ?_, ?_, rfl, rfl⟩
  · intro it hit
    exact decrementStocks_mem s.cartItems s.products it hdist hit
  · exact (totalOf_int (cartSubtotal s.cartItems) D)
  · intro hc
    rw [hc]; rfl
  · intro c hc
    rw [hc]; rfl

def couponFlat : Coupon := ⟨.flat, 100, -10, 10, 0, some 5, 2, true, []⟩

def stW : Store := ⟨wTbl, [⟨1, 1, 2, 500⟩, ⟨2, 2, 1, 250⟩], none, some couponFlat, []⟩

/-- Witness for C2 at a concrete two-line cart with a flat coupon. -/
theorem checkout_success_effects_witness :
    stW.cartItems ≠ [] ∧
    (∃ s' o, create_order_from_cart stW 5 0 = .ok (s', o) ∧
      (∀ it ∈ stW.cartItems, (s'.products it.product_id).stock_quantity
          = (stW.products it.product_id).stock_quantity - it.quantity) ∧
      s'.orders = stW.orders ++ [o] ∧
      o.subtotal_amount = cartSubtotal stW.cartItems ∧
      o.discount_amount = (match stW.coupon with
        | none => 0
        | some c => c.compute_discount stW.cartItems) ∧
      (o.total_amount : Int) =
        max ((cartSubtotal stW.cartItems : Int) - (o.discount_amount : Int)) 0 ∧
      o.items = stW.cartItems.map (fun it =>
        { product_id := it.product_id, quantity := it.quantity,
          unit_price := it.unit_price,
          line_total := it.unit_price * it.quantity }) ∧
      (stW.coupon = none → s'.coupon = none) ∧
      (∀ c, stW.coupon = some c →
        s'.coupon = some { c with times_used := c.times_used + 1 }) ∧
      s'.cartCheckedOutAt = some 5 ∧
      s'.cartItems = []) :=
  ⟨by decide,
   checkout_success_effects stW 5 0 (by decide) (by decide)
     (Or.inr ⟨couponFlat, rfl, by decide⟩) (by decide) (by decide)⟩


/-! ### C4: coupon eligibility order and reasons -/

def couponExhausted : Coupon := ⟨.flat, 100, -10, 10, 0, some 1, 1, true, []⟩

def itemsX : List CartItem := [⟨1, 1, 1, 100⟩]

/-- Counterexample to C4 as stated: the disabled check (check 1) and the
usage-limit check (check 3) do NOT yield distinct reasons — both produce the
single reason "Coupon is expired or disabled.".  `couponDisabled` fails only
check 1 (it is within its window with no usage limit); `couponExhausted`
passes checks 1 and 2 and fails check 3; the returned reasons coincide. -/
theorem coupon_reasons_not_distinct :
    couponDisabled.is_enabled = false ∧
    couponExhausted.is_enabled = true ∧
    couponExhausted.start_at ≤ 0 ∧ (0 : Int) ≤ couponExhausted.end_at ∧
    couponExhausted.usage_limit = some 1 ∧
    1 ≤ couponExhausted.times_used ∧
    couponDisabled.is_applicable_to_cart itemsX 0
      = (false, "Coupon is expired or disabled.") ∧
    couponExhausted.is_applicable_to_cart itemsX 0
      = (false, "Coupon is expired or disabled.") := by
  decide

/-- C4 (amended): the eligibility check evaluates, in this order with the
first failing check deciding the result, (1) coupon disabled, (2) current
time outside the validity window, (3) usage limit set and exhausted — these
three sharing the single reason "Coupon is expired or disabled." — then
(4) subtotal below the coupon minimum and (5) restricted product set
disjoint from the cart, each with its own distinct reason; if all five pass
the coupon is eligible. -/
theorem coupon_eligibility_order (c : Coupon) (items : List CartItem) (now : Int) :
    (c.is_enabled = false →
      c.is_applicable_to_cart items now = (false, "Coupon is expired or disabled.")) ∧
    (c.is_enabled = true → (now < c.start_at ∨ c.end_at < now) →
      c.is_applicable_to_cart items now = (false, "Coupon is expired or disabled.")) ∧
    (∀ lim, c.is_enabled = true → c.start_at ≤ now → now ≤ c.end_at →
      c.usage_limit = some lim → lim ≤ c.times_used →
      c.is_applicable_to_cart items now = (false, "Coupon is expired or disabled.")) ∧
    (c.is_active_now now = true → cartSubtotal items < c.minimum_cart_value →
      c.is_applicable_to_cart items now =
        (false, "Minimum cart value not met for this coupon.")) ∧
    (c.is_active_now now = true → ¬cartSubtotal items < c.minimum_cart_value →
      c.applicable_products ≠ [] →
      (∀ it ∈ items, ¬c.applicable_products.contains it.product_id) →
      c.is_applicable_to_cart items now =
        (false, "Coupon is not applicable to items in your cart.")) ∧
    (c.is_active_now now = true → ¬cartSubtotal items < c.minimum_cart_value →
      (c.applicable_products = [] ∨
        ∃ it ∈ items, c.applicable_products.contains it.product_id = true) →
      c.is_applicable_to_cart items now = (true, "")) := by
  refine ⟨?_, ?_, ?_, ?_, ?_, ?_⟩
  · intro h
    unfold Coupon.is_applicable_to_cart Coupon.is_active_now
    simp [h]
  · intro hen hwin
    have hw : (now < c.start_at || c.end_at < now) = true := by
      rcases hwin with h | h <;> simp [h]
    unfold Coupon.is_applicable_to_cart Coupon.is_active_now
    simp [hen, hw]
  · intro lim hen hs he hl hle
    have hw : (now < c.start_at || c.end_at < now) = false := by
      simp [not_lt.mpr hs, not_lt.mpr he]
    unfold Coupon.is_applicable_to_cart Coupon.is_active_now
    simp [hen, hw, hl, hle]
  · intro ha hlt
    unfold Coupon.is_applicable_to_cart
    simp [ha, hlt]
  · intro ha hge hne hall
    have hie : c.applicable_products.isEmpty = false := by
      rcases hp : c.applicable_products with _ | ⟨y, ys⟩
      · exact absurd hp hne
      · rfl
    unfold Coupon.is_applicable_to_cart
    simp only [ha, Bool.not_true, Bool.false_eq_true, if_false, hge, if_neg hge, hie,
      Bool.not_false, Bool.true_and]
    rw [if_pos]
    rw [List.all_eq_true]
    intro x hx
    simpa using hall x hx
  · intro ha hge hsome
    unfold Coupon.is_applicable_to_cart
    simp only [ha, Bool.not_true, Bool.false_eq_true, if_false, hge, if_neg hge]
    rw [if_neg]
    intro hcond
    rw [Bool.and_eq_true, List.all_eq_true] at hcond
    rcases hsome with hnil | ⟨it, hit, hcont⟩
    · rw [hnil] at hcond
      simp at hcond
    · have hnc := hcond.2 it hit
      rw [hcont] at hnc
      simp at hnc

/-- Witness for the amended C4: concrete instantiations of the disabled
check, the minimum-cart check and the all-pass case. -/
theorem coupon_eligibility_order_witness :
    (couponDisabled.is_enabled = false ∧
      couponDisabled.is_applicable_to_cart itemsX 0
        = (false, "Coupon is expired or disabled.")) ∧
    (couponFlat.is_active_now 0 = true ∧
      couponFlat.is_applicable_to_cart itemsX 0 = (true, "")) :=
  ⟨⟨rfl, (coupon_eligibility_order couponDisabled itemsX 0).1 rfl⟩,
   ⟨rfl, (coupon_eligibility_order couponFlat itemsX 0).2.2.2.2.2
      rfl (by decide) (Or.inl rfl)⟩⟩

/-! ### C5: discount computation and cap -/

/-- C5: `compute_discount` returns, for percentage coupons, the half-even
cent rounding of subtotal times value/10000 (the 4-place-quantized ratio,
exact on a 2-place value); for flat coupons, min(value, subtotal); and the
discount never exceeds the subtotal (flat unconditionally, percentage
whenever the value is at most 100 percent). -/
theorem compute_discount_capped (c : Coupon) (items : List CartItem) :
    (c.discount_type = .percentage →
      c.compute_discount items = rheDiv (cartSubtotal items * c.discount_value) 10000) ∧
    (c.discount_type = .flat →
      c.compute_discount items = min c.discount_value (cartSubtotal items)) ∧
    (c.discount_type = .percentage → c.discount_value ≤ 10000 →
      c.compute_discount items ≤ cartSubtotal items) ∧
    (c.discount_type = .flat → c.compute_discount items ≤ cartSubtotal items) := by
  refine ⟨?_, ?_, ?_, ?_⟩
  · intro h
    unfold Coupon.compute_discount
    rw [h]
  · intro h
    unfold Coupon.compute_discount
    rw [h]
  · intro h hv
    unfold Coupon.compute_discount
    rw [h]
    exact rheDiv_le _ _ _ (by norm_num) (Nat.mul_le_mul_left _ hv)
  · intro h
    unfold Coupon.compute_discount
    rw [h]
    exact min_le_right _ _

def couponTenPct : Coupon := ⟨.percentage, 1000, -10, 10, 0, none, 0, true, []⟩

def items100 : List CartItem := [⟨1, 1, 20, 500⟩]

/-- Witness for C5: a 10 percent coupon on a $100.00 cart gives $10.00,
within the cap, and a $1.00 flat coupon on the same cart gives $1.00. -/
theorem compute_discount_capped_witness :
    couponTenPct.discount_type = .percentage ∧
    couponTenPct.discount_value ≤ 10000 ∧
    couponTenPct.compute_discount items100 ≤ cartSubtotal items100 ∧
    couponFlat.compute_discount items100 ≤ cartSubtotal items100 ∧
    couponTenPct.compute_discount items100 = 1000 ∧
    cartSubtotal items100 = 10000 :=
  ⟨rfl, by decide,
   (compute_discount_capped couponTenPct items100).2.2.1 rfl (by decide),
   (compute_discount_capped couponFlat items100).2.2.2 rfl,
   by decide, by decide⟩


/-! ### C6: repeated add merges into a single line -/

/-- C6: starting from a cart with no line for an (active) product, adding
quantity `q1` and then `q2` of it yields exactly one cart line — never two
rows — with quantity `q1 + q2` and the captured unit price refreshed to the
product's current price, provided `q1 + q2` is within current stock; if
`q1 + q2` exceeds stock the second add fails with the distinct
insufficient-stock error and the line is left unchanged at quantity `q1`. -/
theorem cart_add_merges_single_line (s : Store) (pid q1 q2 id1 id2 : Nat)
    (hact : (s.products pid).is_active = true)
    (hnew : ∀ it ∈ s.cartItems, it.product_id ≠ pid)
    (hfresh : ∀ it ∈ s.cartItems, it.id ≠ id1)
    (hq1 : 1 ≤ q1) (hq2 : 1 ≤ q2)
    (hs1 : q1 ≤ (s.products pid).stock_quantity) :
    ∃ s1, cart_item_add s pid q1 id1 = .ok s1 ∧
      s1.cartItems.filter (fun it => it.product_id = pid)
        = [⟨id1, pid, q1, (s.products pid).price⟩] ∧
      (q1 + q2 ≤ (s.products pid).stock_quantity →
        ∃ s2, cart_item_add s1 pid q2 id2 = .ok s2 ∧
          s2.cartItems.filter (fun it => it.product_id = pid)
            = [⟨id1, pid, q1 + q2, (s.products pid).price⟩]) ∧
      ((s.products pid).stock_quantity < q1 + q2 →
        cart_item_add s1 pid q2 id2 = .error "Insufficient stock." ∧
        s1.cartItems.filter (fun it => it.product_id = pid)
          = [⟨id1, pid, q1, (s.products pid).price⟩]) := by
  have hfind : s.cartItems.find? (fun it => it.product_id = pid) = none := by
    rw [List.find?_eq_none]
    intro x hx
    simp [hnew x hx]
  have heq1 : cart_item_add s pid q1 id1 = .ok
      { s with cartItems := s.cartItems ++
          [{ id := id1, product_id := pid, quantity := q1,
             unit_price := (s.products pid).price }] } := by
    unfold cart_item_add
    simp [hact, not_lt.mpr hq1, not_lt.mpr hs1, hfind]
  have hfilter0 : s.cartItems.filter (fun it => it.product_id = pid) = [] := by
    rw [List.filter_eq_nil_iff]
    intro x hx
    simp [hnew x hx]
  have hfilter1 : (s.cartItems ++
      [({ id := id1, product_id := pid, quantity := q1,
          unit_price := (s.products pid).price } : CartItem)]).filter
        (fun it => it.product_id = pid)
      = [⟨id1, pid, q1, (s.products pid).price⟩] := by
    rw [List.filter_append, hfilter0]
    simp
  have hfind1 : (s.cartItems ++
      [({ id := id1, product_id := pid, quantity := q1,
          unit_price := (s.products pid).price } : CartItem)]).find?
        (fun it => it.product_id = pid)
      = some ⟨id1, pid, q1, (s.products pid).price⟩ := by
    rw [List.find?_append, hfind]
    simp
  refine ⟨_, heq1, hfilter1, ?_, ?_⟩
  · intro hle
    have heq2 : cart_item_add
        { s with cartItems := s.cartItems ++
            [{ id := id1, product_id := pid, quantity := q1,
               unit_price := (s.products pid).price }] } pid q2 id2 = .ok
        { s with cartItems := (s.cartItems ++
            [({ id := id1, product_id := pid, quantity := q1,
                unit_price := (s.products pid).price } : CartItem)]).map (fun it =>
              if it.id = id1 then
                { it with quantity := q1 + q2,
                          unit_price := (s.products pid).price }
              else it) } := by
      unfold cart_item_add
      simp only [hact, Bool.not_true, Bool.false_eq_true, if_false, hfind1]
      rw [if_neg (not_lt.mpr hq2),
        if_neg (not_lt.mpr (le_trans (Nat.le_add_left q2 q1) hle)),
        if_neg (not_lt.mpr hle)]
    refine ⟨_, heq2, ?_⟩
    rw [List.map_append, List.filter_append]
    have hmap : s.cartItems.map (fun it =>
        if it.id = id1 then
          ({ it with quantity := q1 + q2,
                     unit_price := (s.products pid).price } : CartItem)
        else it) = s.cartItems := by
      rw [List.map_congr_left (fun a ha => if_neg (hfresh a ha))]
      exact List.map_id' s.cartItems
    rw [hmap, hfilter0]
    simp
  · intro hgt
    refine ⟨?_, hfilter1⟩
    by_cases hq2s : (s.products pid).stock_quantity < q2
    · unfold cart_item_add
      simp [hact, not_lt.mpr hq2, hq2s]
    · unfold cart_item_add
      simp only [hact, Bool.not_true, Bool.false_eq_true, if_false, hfind1]
      rw [if_neg (not_lt.mpr hq2), if_neg hq2s, if_pos hgt]

def stFresh : Store := ⟨wTbl, [], none, none, []⟩

/-- Witness for C6: adding 3 then 4 units of a product with stock 10 to an
initially empty cart. -/
theorem cart_add_merges_single_line_witness :
    (stFresh.products 1).is_active = true ∧
    3 + 4 ≤ (stFresh.products 1).stock_quantity ∧
    (∃ s1, cart_item_add stFresh 1 3 1 = .ok s1 ∧
      s1.cartItems.filter (fun it => it.product_id = 1)
        = [⟨1, 1, 3, (stFresh.products 1).price⟩] ∧
      (3 + 4 ≤ (stFresh.products 1).stock_quantity →
        ∃ s2, cart_item_add s1 1 4 2 = .ok s2 ∧
          s2.cartItems.filter (fun it => it.product_id = 1)
            = [⟨1, 1, 3 + 4, (stFresh.products 1).price⟩]) ∧
      ((stFresh.products 1).stock_quantity < 3 + 4 →
        cart_item_add s1 1 4 2 = .error "Insufficient stock." ∧
        s1.cartItems.filter (fun it => it.product_id = 1)
          = [⟨1, 1, 3, (stFresh.products 1).price⟩])) :=
  ⟨rfl, by decide,
   cart_add_merges_single_line stFresh 1 3 4 1 2 rfl
     (by intro it hit; cases hit) (by intro it hit; cases hit)
     (by decide) (by decide) (by decide)⟩


/-! ### C7: add then remove restores the subtotal -/

def stPrior : Store := ⟨wTbl, [⟨1, 1, 1, 500⟩], none, none, []⟩

/-- Counterexample to C7 as stated: if the product already has a line in the
cart, the add merges into that line, so removing "the resulting item"
removes the pre-existing quantity too.  Cart with one line (product 1,
quantity 1, $5.00): subtotal $5.00; adding one more unit of product 1
(stock 10, amply sufficient) merges to quantity 2; deleting the resulting
item leaves subtotal $0.00, not the prior $5.00. -/
theorem add_remove_subtotal_counterexample :
    cartSubtotal stPrior.cartItems = 500 ∧
    cart_item_add stPrior 1 1 2 =
      .ok ⟨wTbl, [⟨1, 1, 2, 500⟩], none, none, []⟩ ∧
    cartSubtotal
      (cart_item_delete (⟨wTbl, [⟨1, 1, 2, 500⟩], none, none, []⟩ : Store) 1).cartItems
      = 0 ∧
    (0 : Nat) ≠ 500 :=
  ⟨rfl, rfl, rfl, by decide⟩

/-- C7 (amended): for every cart and every product with sufficient stock
that is **not already in the cart**, adding it and then removing the
resulting item restores the cart's subtotal (round2 of the sum of captured
unit price times quantity) to exactly its prior value. -/
theorem add_remove_restores_subtotal (s : Store) (pid q newId : Nat)
    (hact : (s.products pid).is_active = true)
    (hnew : ∀ it ∈ s.cartItems, it.product_id ≠ pid)
    (hfresh : ∀ it ∈ s.cartItems, it.id ≠ newId)
    (hq : 1 ≤ q) (hs : q ≤ (s.products pid).stock_quantity) :
    ∃ s1, cart_item_add s pid q newId = .ok s1 ∧
      cartSubtotal (cart_item_delete s1 newId).cartItems
        = cartSubtotal s.cartItems := by
  have hfind : s.cartItems.find? (fun it => it.product_id = pid) = none := by
    rw [List.find?_eq_none]
    intro x hx
    simp [hnew x hx]
  refine ⟨{ s with cartItems := s.cartItems ++
      [⟨newId, pid, q, (s.products pid).price⟩] }, ?_, ?_⟩
  · unfold cart_item_add
    simp [hact, not_lt.mpr hq, not_lt.mpr hs, hfind]
  · unfold cart_item_delete
    simp only []
    rw [List.filter_append]
    have h1 : s.cartItems.filter (fun it => !(it.id = newId)) = s.cartItems :=
      List.filter_eq_self.mpr (fun a ha => by simp [hfresh a ha])
    have h2 : ([(⟨newId, pid, q, (s.products pid).price⟩ : CartItem)]).filter
          (fun it => !(it.id = newId)) = [] := by
      simp
    rw [h1, h2, List.append_nil]

/-- Witness for the amended C7: cart holding product 1, adding and removing
product 2 restores the $10.00 subtotal. -/
theorem add_remove_restores_subtotal_witness :
    (∀ it ∈ stOne.cartItems, it.product_id ≠ 2) ∧
    cartSubtotal stOne.cartItems = 1000 ∧
    (∃ s1, cart_item_add stOne 2 1 7 = .ok s1 ∧
      cartSubtotal (cart_item_delete s1 7).cartItems
        = cartSubtotal stOne.cartItems) :=
  ⟨by decide, by decide,
   add_remove_restores_subtotal stOne 2 1 7 rfl (by decide) (by decide)
     (by decide) (by decide)⟩

/-! ### C8: guest cart merge into an empty user cart -/

def tbl7 : Nat → Product := fun _ => ⟨"Gadget", 700, 10, true⟩

/-- Counterexample to C8 as stated: the merge refreshes each copied item's
unit price to the product's **current** price, so if a price changed since
the guest captured it, the user cart's subtotal differs from the guest
cart's pre-merge subtotal.  Guest line: 1 unit captured at $5.00; current
price $7.00; merged user cart subtotal is $7.00, not $5.00 (the guest cart
is emptied either way). -/
theorem merge_subtotal_counterexample :
    cartSubtotal [⟨1, 1, 1, 500⟩] = 500 ∧
    merge_guest_cart_into_user_cart tbl7 [] [⟨1, 1, 1, 500⟩]
      = ([⟨1, 1, 1, 700⟩], []) ∧
    cartSubtotal [⟨1, 1, 1, 700⟩] = 700 ∧
    (700 : Nat) ≠ 500 :=
  ⟨rfl, rfl, rfl, by decide⟩

theorem merge_all_new (products : Nat → Product) (guestItems : List CartItem) :
    ∀ userItems : List CartItem,
    (∀ g ∈ guestItems, ∀ u ∈ userItems, u.product_id ≠ g.product_id) →
    guestItems.Pairwise (fun a b => a.product_id ≠ b.product_id) →
    guestItems.foldl (mergeStep products) userItems
      = userItems ++ guestItems.map (fun g =>
          { id := g.id, product_id := g.product_id, quantity := g.quantity,
            unit_price := (products g.product_id).price }) := by
  induction guestItems with
  | nil => intro u _ _; simp
  | cons g gs ih =>
      intro u hdisj hpw
      rw [List.pairwise_cons] at hpw
      simp only [List.foldl_cons]
      have hfind : u.find? (fun it => it.product_id = g.product_id) = none := by
        rw [List.find?_eq_none]
        intro x hx
        simp [hdisj g (by simp) x hx]
      have hstep : mergeStep products u g = u ++
          [{ id := g.id, product_id := g.product_id, quantity := g.quantity,
             unit_price := (products g.product_id).price }] := by
        unfold mergeStep
        rw [hfind]
      rw [hstep, ih _ ?_ hpw.2]
      · rw [List.append_assoc]
        rfl
      · intro g2 hg2 u2 hu2
        rcases List.mem_append.mp hu2 with h | h
        · exact hdisj g2 (by simp [hg2]) u2 h
        · have hu : u2 = ⟨g.id, g.product_id, g.quantity,
              (products g.product_id).price⟩ := by
            simpa using h
          subst hu
          exact hpw.1 g2 hg2

/-- C8 (amended): merging a non-empty guest cart into an empty user cart
copies every guest line with its quantity and the product's **current**
price, and empties the guest cart; the user cart's subtotal equals the
guest cart's pre-merge subtotal provided each guest item's captured unit
price still equals its product's current price (unconditionally, the claim
fails — see the counterexample). -/
theorem merge_into_empty_cart (products : Nat → Product)
    (guestItems : List CartItem)
    (hpw : guestItems.Pairwise (fun a b => a.product_id ≠ b.product_id))
    (hprice : ∀ g ∈ guestItems, (products g.product_id).price = g.unit_price) :
    cartSubtotal (merge_guest_cart_into_user_cart products [] guestItems).1
      = cartSubtotal guestItems ∧
    (merge_guest_cart_into_user_cart products [] guestItems).2 = [] := by
  constructor
  · unfold merge_guest_cart_into_user_cart
    simp only []
    rw [merge_all_new products guestItems [] (by intro g _ u hu; cases hu) hpw,
      List.nil_append]
    unfold cartSubtotal
    rw [List.map_map]
    congr 1
    apply List.map_congr_left
    intro a ha
    simp [hprice a ha]
  · rfl

/-- Witness for the amended C8: a two-line guest cart whose captured prices
match current prices merges into an empty user cart preserving the $15.00
subtotal. -/
theorem merge_into_empty_cart_witness :
    cartSubtotal [(⟨1, 1, 2, 500⟩ : CartItem), ⟨2, 2, 1, 500⟩] = 1500 ∧
    cartSubtotal
      (merge_guest_cart_into_user_cart wTbl []
        [⟨1, 1, 2, 500⟩, ⟨2, 2, 1, 500⟩]).1
      = cartSubtotal [(⟨1, 1, 2, 500⟩ : CartItem), ⟨2, 2, 1, 500⟩] ∧
    (merge_guest_cart_into_user_cart wTbl []
      [⟨1, 1, 2, 500⟩, ⟨2, 2, 1, 500⟩]).2 = [] :=
  ⟨by decide,
   (merge_into_empty_cart wTbl [⟨1, 1, 2, 500⟩, ⟨2, 2, 1, 500⟩]
     (by decide) (by decide)).1,
   (merge_into_empty_cart wTbl [⟨1, 1, 2, 500⟩, ⟨2, 2, 1, 500⟩]
     (by decide) (by decide)).2⟩

/-! ### C10: checkout never re-checks the active flag -/

/-- C10: `create_order_from_cart` never consults `is_active` — a cart whose
lines reference products that have since been marked inactive still checks
out successfully (given the other preconditions) and their stock is
decremented, even though such a product can no longer be added to a cart
(the serializer resolves `product_id` against active products only). -/
theorem checkout_ignores_active_flag (s : Store) (now : Int) (m : Nat)
    (hne : s.cartItems ≠ [])
    (hM : ¬cartSubtotal s.cartItems < m)
    (hcoup : s.coupon = none ∨
      ∃ c, s.coupon = some c ∧ (c.is_applicable_to_cart s.cartItems now).1 = true)
    (hstock : ∀ it ∈ s.cartItems,
      it.quantity ≤ (s.products it.product_id).stock_quantity)
    (hdist : s.cartItems.Pairwise (fun a b => a.product_id ≠ b.product_id))
    (hinactive : ∀ it ∈ s.cartItems, (s.products it.product_id).is_active = false) :
    (∃ s' o, create_order_from_cart s now m = .ok (s', o) ∧
      ∀ it ∈ s.cartItems, (s'.products it.product_id).stock_quantity
        = (s.products it.product_id).stock_quantity - it.quantity) ∧
    (∀ pid q nid, (s.products pid).is_active = false →
      cart_item_add s pid q nid = .error "Invalid pk - object does not exist.") := by
  constructor
  · have hlen : ¬s.cartItems.length = 0 := by
      intro h0
      exact hne (List.length_eq_zero.mp h0)
    have hfind : s.cartItems.find?
        (fun it => (s.products it.product_id).stock_quantity < it.quantity) = none := by
      rw [List.find?_eq_none]
      intro x hx
      simp only [decide_eq_true_eq, not_lt]
      exact hstock x hx
    rcases hcoup with hc | ⟨c, hc, hok⟩
    · refine ⟨_, _, checkout_commits s now m 0 hlen hM (Or.inl ⟨hc, rfl⟩) hfind, ?_⟩
      intro it hit
      exact decrementStocks_mem s.cartItems s.products it hdist hit
    · refine ⟨_, _, checkout_commits s now m (c.compute_discount s.cartItems)
        hlen hM (Or.inr ⟨c, hc, hok, rfl⟩) hfind, ?_⟩
      intro it hit
      exact decrementStocks_mem s.cartItems s.products it hdist hit
  · intro pid q nid h
    unfold cart_item_add
    simp [h]

def tblRetired : Nat → Product := fun _ => ⟨"Retired", 500, 10, false⟩

def stRetired : Store := ⟨tblRetired, [⟨1, 1, 2, 500⟩], none, none, []⟩

/-- Witness for C10: a cart line on an inactive product checks out and the
stock is decremented, while adding that product to a cart is rejected. -/
theorem checkout_ignores_active_flag_witness :
    (∀ it ∈ stRetired.cartItems,
      (stRetired.products it.product_id).is_active = false) ∧
    ((∃ s' o, create_order_from_cart stRetired 3 0 = .ok (s', o) ∧
      ∀ it ∈ stRetired.cartItems, (s'.products it.product_id).stock_quantity
        = (stRetired.products it.product_id).stock_quantity - it.quantity) ∧
    (∀ pid q nid, (stRetired.products pid).is_active = false →
      cart_item_add stRetired pid q nid
        = .error "Invalid pk - object does not exist.")) :=
  ⟨by decide,
   checkout_ignores_active_flag stRetired 3 0 (by decide) (by decide)
     (Or.inl rfl) (by decide) (by decide) (by decide)⟩

end Shop
